import Mathlib

/-!
Verification of the codex-teams coordination plane against its specification.

This file gives a shallow embedding, in Lean, of the parts of the TypeScript
source that the checked properties talk about:

* `src/messages.ts` — the `MessageSystem` message bus (group chat, DM channels
  keyed by the canonicalized unordered pair of agent ids, the singleton lead
  channel, shared artifacts, per-reader cursors, team dissolution);
* `src/state.ts` — the `TeamManager` state store (teams, agents, tasks,
  `createTask`, `completeTask`, `removeAgent`);
* `src/tools/mission.ts` — `runVerifyCommand` and the `assign_task` /
  `complete_task` tool handlers' auto-start logic;
* `src/tools/communication.ts` — the `broadcast` tool handler's target
  selection.

Modelling conventions: JavaScript `Map`s become insertion-ordered association
lists (`List (String × α)`) with `mapGet` / `mapSet` / `mapDelete` mirroring
`get` / `set` / `delete`; `Date` instants become `Nat`; the values produced by
`crypto.randomUUID()` and `new Date()` inside an operation are passed in as
explicit `msgId` / `now` arguments; asynchronous adapter calls
(`codex.sendToAgent`) are modelled by an explicit outcome of type
`Except String String`; thrown errors become explicit error constructors.
-/

namespace CodexTeams

/-- A chat message, from `Message` in `src/messages.ts`.  The source fields
`from` / `fromRole` are embedded as `fromId` / `fromRole` (`from` is a Lean
keyword); `timestamp` is the `Date` instant as a `Nat`. -/
structure Message where
  id : String
  fromId : String
  fromRole : String
  text : String
  timestamp : Nat
deriving DecidableEq, Repr

/-- A chat channel, from `ChatChannel` in `src/messages.ts`: an ordered message
log plus the per-reader cursor map `readCursors`. -/
structure ChatChannel where
  messages : List Message
  readCursors : List (String × Nat)
deriving DecidableEq, Repr

/-- A shared artifact, from `SharedArtifact` in `src/messages.ts`. -/
structure SharedArtifact where
  fromId : String
  data : String
  timestamp : Nat
deriving DecidableEq, Repr

/-- `Map.prototype.get`: first (and, for maps built through `mapSet`, only)
binding of the key. -/
def mapGet {α : Type} (l : List (String × α)) (k : String) : Option α :=
  (l.find? (fun e => e.1 == k)).map (fun e => e.2)

/-- `Map.prototype.set`: update the existing binding in place (preserving
insertion order) or append a fresh binding at the end. -/
def mapSet {α : Type} (l : List (String × α)) (k : String) (v : α) : List (String × α) :=
  if l.any (fun e => e.1 == k) then
    l.map (fun e => if e.1 == k then (k, v) else e)
  else
    l ++ [(k, v)]

/-- `Map.prototype.delete`. -/
def mapDelete {α : Type} (l : List (String × α)) (k : String) : List (String × α) :=
  l.filter (fun e => e.1 != k)

/-- The `MessageSystem` state from `src/messages.ts`: team chats and DM
channels are `Map<string, ChatChannel>`, the lead channel is a single
channel, shared artifacts a `Map<string, SharedArtifact[]>`. -/
structure MessageSystem where
  teamChats : List (String × ChatChannel)
  dms : List (String × ChatChannel)
  leadChat : ChatChannel
  sharedArtifacts : List (String × List SharedArtifact)
deriving DecidableEq, Repr

/-- A fresh, empty channel (the literal used by `getOrCreateChannel`). -/
def emptyChannel : ChatChannel := { messages := [], readCursors := [] }

/-- The initial `MessageSystem` (all maps empty, `leadChat` fresh). -/
def emptySystem : MessageSystem :=
  { teamChats := [], dms := [], leadChat := emptyChannel, sharedArtifacts := [] }

/-- `MessageSystem.getOrCreateChannel`: the channel under `key`, or a fresh
empty one.  (The source also inserts the fresh channel into the map; each
caller below re-inserts the channel it ends up with via `mapSet`, which has
the same net effect on every observable operation.) -/
def getOrCreateChannel (map : List (String × ChatChannel)) (key : String) : ChatChannel :=
  match mapGet map key with
  | some c => c
  | none => emptyChannel

/-- `MessageSystem.getCursor`: `channel.readCursors.get(agentId) ?? 0`. -/
def getCursor (channel : ChatChannel) (agentId : String) : Nat :=
  match mapGet channel.readCursors agentId with
  | some n => n
  | none => 0

/-- `MessageSystem.dmKey`: canonicalized key of the unordered pair, with the
lexicographically smaller id first and `"\0"` as separator. -/
def dmKey (a b : String) : String :=
  if a < b then a ++ "\x00" ++ b else b ++ "\x00" ++ a

/-- Split a character list at its first NUL, returning the part before it and
everything after it.  This is `key.indexOf("\0")` followed by
`key.slice(0, sep)` / `key.slice(sep + 1)` for keys that contain a NUL (all
keys produced by `dmKey` do). -/
def splitNull : List Char → List Char × List Char
  | [] => ([], [])
  | c :: rest =>
    if c = '\x00' then ([], rest)
    else
      let p := splitNull rest
      (c :: p.1, p.2)

/-- `MessageSystem.isDmParticipant`: one of the two halves of the key equals
the agent id. -/
def isDmParticipant (key agentId : String) : Bool :=
  let p := splitNull key.data
  String.mk p.1 == agentId || String.mk p.2 == agentId

/-- The first two segments of `key.split("\0")`, as destructured by
`dissolveTeamWithAgents` and `getAllDmMessages`.  (For a key with no NUL the
source's second component is `undefined`; such keys are never produced by
`dmKey`, and the model returns `""` there.) -/
def splitPair (key : String) : String × String :=
  let p := splitNull key.data
  let q := splitNull p.2
  (String.mk p.1, String.mk q.1)

/-- `MessageSystem.postMessage`: build the message and append it to the
channel.  `msgId` stands for `crypto.randomUUID()` and `now` for
`new Date()`. -/
def postMessage (channel : ChatChannel) (fromId fromRole text : String)
    (msgId : String) (now : Nat) : Message × ChatChannel :=
  let msg : Message :=
    { id := msgId, fromId := fromId, fromRole := fromRole, text := text, timestamp := now }
  (msg, { channel with messages := channel.messages ++ [msg] })

/-- `MessageSystem.readMessages`: unread slice from the caller's cursor with
the caller's own posts filtered out; the cursor advances to the end of the
log. -/
def readMessages (channel : ChatChannel) (agentId : String) : List Message × ChatChannel :=
  let cursor := getCursor channel agentId
  let unread := (channel.messages.drop cursor).filter (fun m => m.fromId != agentId)
  (unread,
    { channel with readCursors := mapSet channel.readCursors agentId channel.messages.length })

/-- `MessageSystem.peekCount`: size of the unread slice with own posts
filtered out; non-destructive. -/
def peekCount (channel : ChatChannel) (agentId : String) : Nat :=
  let cursor := getCursor channel agentId
  ((channel.messages.drop cursor).filter (fun m => m.fromId != agentId)).length

/-- `MessageSystem.groupChatPost`. -/
def groupChatPost (ms : MessageSystem) (teamId agentId agentRole message : String)
    (msgId : String) (now : Nat) : MessageSystem :=
  let channel := getOrCreateChannel ms.teamChats teamId
  let p := postMessage channel agentId agentRole message msgId now
  { ms with teamChats := mapSet ms.teamChats teamId p.2 }

/-- `MessageSystem.groupChatRead`. -/
def groupChatRead (ms : MessageSystem) (teamId agentId : String) :
    List Message × MessageSystem :=
  let channel := getOrCreateChannel ms.teamChats teamId
  let r := readMessages channel agentId
  (r.1, { ms with teamChats := mapSet ms.teamChats teamId r.2 })

/-- `MessageSystem.groupChatPeek`. -/
def groupChatPeek (ms : MessageSystem) (teamId agentId : String) : Nat :=
  peekCount (getOrCreateChannel ms.teamChats teamId) agentId

/-- `MessageSystem.dmSend`: append to the channel keyed by the canonicalized
unordered pair of the two agent ids. -/
def dmSend (ms : MessageSystem) (fromAgentId toAgentId fromRole message : String)
    (msgId : String) (now : Nat) : MessageSystem :=
  let key := dmKey fromAgentId toAgentId
  let channel := getOrCreateChannel ms.dms key
  let p := postMessage channel fromAgentId fromRole message msgId now
  { ms with dms := mapSet ms.dms key p.2 }

/-- Stable insertion of a message into a timestamp-sorted list: the message
goes after every already-placed message with an equal or smaller timestamp. -/
def insertByTs (m : Message) : List Message → List Message
  | [] => [m]
  | x :: xs => if x.timestamp ≤ m.timestamp then x :: insertByTs m xs else m :: x :: xs

/-- The stable `sort((a, b) => a.timestamp - b.timestamp)` used by `dmRead`. -/
def sortByTs (l : List Message) : List Message :=
  l.foldl (fun acc m => insertByTs m acc) []

/-- `MessageSystem.dmRead`: walk every DM channel the receiver participates
in, in map insertion order.  With a sender filter, collect the unread
messages from that sender without touching any cursor (the filtered branch
of the source performs no `readCursors.set`); without a filter, do a full
`readMessages` on each channel (advancing its cursor).  The merged result is
sorted by timestamp ascending. -/
def dmRead (ms : MessageSystem) (agentId : String) (fromAgentId : Option String) :
    List Message × MessageSystem :=
  let step := ms.dms.foldl
    (fun (acc : List Message × List (String × ChatChannel)) kc =>
      if isDmParticipant kc.1 agentId then
        match fromAgentId with
        | some f =>
          let cursor := getCursor kc.2 agentId
          let unread := kc.2.messages.drop cursor
          let matching := unread.filter (fun m => m.fromId == f)
          if matching.length > 0 then
            (acc.1 ++ matching, acc.2 ++ [kc])
          else
            (acc.1, acc.2 ++ [kc])
        | none =>
          let r := readMessages kc.2 agentId
          (acc.1 ++ r.1, acc.2 ++ [(kc.1, r.2)])
      else
        (acc.1, acc.2 ++ [kc]))
    ([], [])
  (sortByTs step.1, { ms with dms := step.2 })

/-- `MessageSystem.dmPeek`: total unread count over the receiver's DM
channels. -/
def dmPeek (ms : MessageSystem) (agentId : String) : Nat :=
  ms.dms.foldl
    (fun total kc =>
      if isDmParticipant kc.1 agentId then total + peekCount kc.2 agentId else total)
    0

/-- `MessageSystem.leadChatPost`: append to the singleton lead channel with
the `[teamName] ` text header. -/
def leadChatPost (ms : MessageSystem) (agentId agentRole teamName message : String)
    (msgId : String) (now : Nat) : MessageSystem :=
  let p := postMessage ms.leadChat agentId agentRole ("[" ++ teamName ++ "] " ++ message) msgId now
  { ms with leadChat := p.2 }

/-- `MessageSystem.leadChatRead`. -/
def leadChatRead (ms : MessageSystem) (agentId : String) : List Message × MessageSystem :=
  let r := readMessages ms.leadChat agentId
  (r.1, { ms with leadChat := r.2 })

/-- `MessageSystem.leadChatPeek`. -/
def leadChatPeek (ms : MessageSystem) (agentId : String) : Nat :=
  peekCount ms.leadChat agentId

/-- `MessageSystem.dissolveTeamWithAgents`: drop the team's group channel and
artifacts, drop every DM channel whose key has BOTH endpoints in `agentIds`,
and clear those agents' lead-channel cursors. -/
def dissolveTeamWithAgents (ms : MessageSystem) (teamId : String) (agentIds : List String) :
    MessageSystem :=
  { teamChats := mapDelete ms.teamChats teamId
    sharedArtifacts := mapDelete ms.sharedArtifacts teamId
    dms := ms.dms.filter (fun kc =>
      let p := splitPair kc.1
      !(agentIds.contains p.1 && agentIds.contains p.2))
    leadChat :=
      { ms.leadChat with
        readCursors := ms.leadChat.readCursors.filter (fun e => !(agentIds.contains e.1)) } }

/-- Own posts never pass the `m.from !== agentId` filter of `readMessages`. -/
theorem readMessages_not_own (channel : ChatChannel) (agentId : String) :
    ∀ m ∈ (readMessages channel agentId).1, m.fromId ≠ agentId := by
  intro m hm
  simp only [readMessages, List.mem_filter, bne_iff_ne, ne_eq] at hm
  exact hm.2

/-- C5.  For every group or lead channel state, every reader, and every
history of posts and reads (any reachable `MessageSystem` is covered because
the statement quantifies over all states): `group_chat_read` / `lead_chat_read`
never return a message whose sender is the reader, and `group_chat_peek` /
`lead_chat_peek` count exactly the messages the corresponding read would
return, so they never count an own message. -/
theorem read_own_suppression (ms : MessageSystem) (teamId agentId : String) :
    (∀ m ∈ (groupChatRead ms teamId agentId).1, m.fromId ≠ agentId) ∧
    groupChatPeek ms teamId agentId = (groupChatRead ms teamId agentId).1.length ∧
    (∀ m ∈ (leadChatRead ms agentId).1, m.fromId ≠ agentId) ∧
    leadChatPeek ms agentId = (leadChatRead ms agentId).1.length := by
  refine ⟨?_, rfl, ?_, rfl⟩
  · intro m hm
    exact readMessages_not_own _ agentId m hm
  · intro m hm
    exact readMessages_not_own _ agentId m hm

/-- Splitting at the first NUL undoes building a key from a NUL-free left
half. -/
theorem splitNull_append (a b : List Char) (h : '\x00' ∉ a) :
    splitNull (a ++ '\x00' :: b) = (a, b) := by
  induction a with
  | nil => simp [splitNull]
  | cons c rest ih =>
    simp only [List.mem_cons, not_or] at h
    have hc : ¬ c = '\x00' := fun hc => h.1 hc.symm
    simp [splitNull, hc, ih h.2]

/-- Participant test on an explicitly concatenated key whose left half is
NUL-free. -/
theorem isDmParticipant_append (x y z : String) (hx : '\x00' ∉ x.data) :
    isDmParticipant (x ++ "\x00" ++ y) z = (x == z || y == z) := by
  unfold isDmParticipant
  have hdata : (x ++ "\x00" ++ y).data = x.data ++ '\x00' :: y.data := by
    simp [String.data_append]
  rw [hdata, splitNull_append _ _ hx]

/-- The DM key is the same in both directions: the unordered pair is
canonicalized with the smaller id first. -/
theorem dmKey_comm (a b : String) : dmKey a b = dmKey b a := by
  unfold dmKey
  rcases lt_trichotomy a b with h | h | h
  · rw [if_pos h, if_neg (not_lt.mpr h.le)]
  · subst h; rfl
  · rw [if_neg (not_lt.mpr h.le), if_pos h]

/-- Each endpoint of a NUL-free pair passes the participant test on the
canonicalized key. -/
theorem isDmParticipant_dmKey (a b x : String) (ha : '\x00' ∉ a.data)
    (hb : '\x00' ∉ b.data) (hx : x = a ∨ x = b) :
    isDmParticipant (dmKey a b) x = true := by
  unfold dmKey
  split
  · rw [isDmParticipant_append _ _ _ ha]
    rcases hx with rfl | rfl <;> simp
  · rw [isDmParticipant_append _ _ _ hb]
    rcases hx with rfl | rfl <;> simp

/-- The two-send state of messages.test.ts "filtered read only advances
cursor for channels with matching messages": agent-a and agent-b have each
sent one DM to agent-c. -/
def filteredReadState : MessageSystem :=
  dmSend (dmSend emptySystem "agent-a" "agent-c" "dev" "from a" "id1" 1)
    "agent-b" "agent-c" "tester" "from b" "id2" 2

theorem dmKey_ac : dmKey "agent-a" "agent-c" = "agent-a\x00agent-c" := by
  have h : ("agent-a" : String) < "agent-c" := by rw [String.lt_iff_toList_lt]; decide
  simp only [dmKey, if_pos h]; decide

theorem dmKey_bc : dmKey "agent-b" "agent-c" = "agent-b\x00agent-c" := by
  have h : ("agent-b" : String) < "agent-c" := by rw [String.lt_iff_toList_lt]; decide
  simp only [dmKey, if_pos h]; decide

/-- C1.  Evaluating `dmRead` with a sender filter at the input of the
repository's own test (messages.test.ts, "filtered read only advances cursor
for channels with matching messages"): the filtered read returns agent-a's
unread message but leaves the whole system — in particular every read
cursor — unchanged, so the same filtered read returns the same message
again, and the follow-up unfiltered read still returns BOTH messages (the
test asserts it returns only agent-b's).  The filtered branch of
`MessageSystem.dmRead` never calls `readCursors.set`. -/
theorem dmRead_filtered_never_advances_cursor :
    ((dmRead filteredReadState "agent-c" (some "agent-a")).1.map (fun m => m.text)
        = ["from a"]) ∧
    (dmRead filteredReadState "agent-c" (some "agent-a")).2 = filteredReadState ∧
    ((dmRead (dmRead filteredReadState "agent-c" (some "agent-a")).2 "agent-c"
        (some "agent-a")).1.map (fun m => m.text) = ["from a"]) ∧
    ((dmRead (dmRead filteredReadState "agent-c" (some "agent-a")).2 "agent-c"
        none).1.map (fun m => m.text) = ["from a", "from b"]) := by
  refine ⟨?_, ?_, ?_, ?_⟩ <;>
    · simp only [filteredReadState, dmSend, dmKey_ac, dmKey_bc]
      decide

/-- The state of messages.test.ts "cleans up DMs involving team agents with
outside agents": a DM from team member agent-a to the outside agent-x,
followed by dissolution of the team with member list `["agent-a"]`. -/
def halfMemberDissolveState : MessageSystem :=
  dissolveTeamWithAgents
    (dmSend emptySystem "agent-a" "agent-x" "dev" "cross-team dm" "id1" 1)
    "team1" ["agent-a"]

theorem dmKey_ax : dmKey "agent-a" "agent-x" = "agent-a\x00agent-x" := by
  have h : ("agent-a" : String) < "agent-x" := by rw [String.lt_iff_toList_lt]; decide
  simp only [dmKey, if_pos h]; decide

/-- C3.  Evaluating `dissolveTeamWithAgents` at the input of the repository's
own test (messages.test.ts, "cleans up DMs involving team agents with
outside agents"): the a↔x channel, whose endpoints are NOT both in the
dissolved member list, survives the dissolution, and the outside agent still
has one unread message (the test asserts `dmPeek("agent-x")` is 0).  The
source deletes a DM channel only when `agentSet.has(a) && agentSet.has(b)`. -/
theorem dissolve_keeps_single_endpoint_channels :
    halfMemberDissolveState.dms.map (fun kc => kc.1) = ["agent-a\x00agent-x"] ∧
    dmPeek halfMemberDissolveState "agent-x" = 1 ∧
    dmPeek halfMemberDissolveState "agent-a" = 0 := by
  refine ⟨?_, ?_, ?_⟩ <;>
    · simp only [halfMemberDissolveState, dmSend, dmKey_ax]
      decide

/-- Unfolding equation: what `dmSend` does to the DM channel map. -/
theorem dmSend_dms_eq (ms : MessageSystem) (a b role text msgId : String) (now : Nat) :
    (dmSend ms a b role text msgId now).dms =
      mapSet ms.dms (dmKey a b)
        { messages := (getOrCreateChannel ms.dms (dmKey a b)).messages ++
            [{ id := msgId, fromId := a, fromRole := role, text := text, timestamp := now }]
          readCursors := (getOrCreateChannel ms.dms (dmKey a b)).readCursors } := rfl

/-- C7.  DM symmetry: the canonicalized key is direction-independent, so for
any two distinct agents A and B (agent ids contain no NUL), a send A→B
followed by a send B→A lands both messages, in order, in ONE shared channel
(looked up under either direction's key), and each participant's unfiltered
`dmRead` returns the other's message — the same underlying sequence with
own-message suppression applied per reader. -/
theorem dm_symmetric_shared_channel (A B rA rB tA tB idA idB : String) (tsA tsB : Nat)
    (hAB : A ≠ B) (hA : '\x00' ∉ A.data) (hB : '\x00' ∉ B.data) :
    dmKey A B = dmKey B A ∧
    (dmSend (dmSend emptySystem A B rA tA idA tsA) B A rB tB idB tsB).dms =
      [(dmKey A B,
        { messages :=
            [{ id := idA, fromId := A, fromRole := rA, text := tA, timestamp := tsA },
             { id := idB, fromId := B, fromRole := rB, text := tB, timestamp := tsB }]
          readCursors := [] })] ∧
    (dmRead (dmSend (dmSend emptySystem A B rA tA idA tsA) B A rB tB idB tsB) A none).1 =
      [{ id := idB, fromId := B, fromRole := rB, text := tB, timestamp := tsB }] ∧
    (dmRead (dmSend (dmSend emptySystem A B rA tA idA tsA) B A rB tB idB tsB) B none).1 =
      [{ id := idA, fromId := A, fromRole := rA, text := tA, timestamp := tsA }] := by
  have hcomm := dmKey_comm A B
  have h1 : (dmSend emptySystem A B rA tA idA tsA).dms =
      [(dmKey A B,
        { messages := [{ id := idA, fromId := A, fromRole := rA, text := tA, timestamp := tsA }]
          readCursors := [] })] := rfl
  have h2 : (dmSend (dmSend emptySystem A B rA tA idA tsA) B A rB tB idB tsB).dms =
      [(dmKey A B,
        { messages :=
            [{ id := idA, fromId := A, fromRole := rA, text := tA, timestamp := tsA },
             { id := idB, fromId := B, fromRole := rB, text := tB, timestamp := tsB }]
          readCursors := [] })] := by
    rw [dmSend_dms_eq, h1, ← hcomm]
    simp [mapSet, mapGet, getOrCreateChannel]
  have hpA : isDmParticipant (dmKey A B) A = true :=
    isDmParticipant_dmKey A B A hA hB (Or.inl rfl)
  have hpB : isDmParticipant (dmKey A B) B = true :=
    isDmParticipant_dmKey A B B hA hB (Or.inr rfl)
  refine ⟨hcomm, h2, ?_, ?_⟩
  · show (dmRead _ A none).1 = _
    simp [dmRead, h2, hpA, readMessages, getCursor, mapGet, sortByTs, insertByTs,
      bne_self_eq_false, bne_iff_ne, Ne.symm hAB]
  · show (dmRead _ B none).1 = _
    simp [dmRead, h2, hpB, readMessages, getCursor, mapGet, sortByTs, insertByTs,
      bne_self_eq_false, bne_iff_ne, hAB]

/-- Witness for C7 at the concrete agents "alice" and "bob". -/
theorem dm_symmetric_shared_channel_witness :
    (("alice" : String) ≠ "bob" ∧ '\x00' ∉ ("alice" : String).data ∧
      '\x00' ∉ ("bob" : String).data) ∧
    (dmKey "alice" "bob" = dmKey "bob" "alice" ∧
     (dmSend (dmSend emptySystem "alice" "bob" "dev" "hi" "i1" 1) "bob" "alice" "qa" "yo" "i2" 2).dms =
       [(dmKey "alice" "bob",
         { messages :=
             [{ id := "i1", fromId := "alice", fromRole := "dev", text := "hi", timestamp := 1 },
              { id := "i2", fromId := "bob", fromRole := "qa", text := "yo", timestamp := 2 }]
           readCursors := [] })] ∧
     (dmRead (dmSend (dmSend emptySystem "alice" "bob" "dev" "hi" "i1" 1) "bob" "alice" "qa" "yo" "i2" 2)
         "alice" none).1 =
       [{ id := "i2", fromId := "bob", fromRole := "qa", text := "yo", timestamp := 2 }] ∧
     (dmRead (dmSend (dmSend emptySystem "alice" "bob" "dev" "hi" "i1" 1) "bob" "alice" "qa" "yo" "i2" 2)
         "bob" none).1 =
       [{ id := "i1", fromId := "alice", fromRole := "dev", text := "hi", timestamp := 1 }]) :=
  ⟨⟨by decide, by decide, by decide⟩,
    dm_symmetric_shared_channel "alice" "bob" "dev" "qa" "hi" "yo" "i1" "i2" 1 2
      (by decide) (by decide) (by decide)⟩

/-- Agent status, from `AgentStatus` in `src/types.ts`. -/
inductive AgentStatus
  | idle
  | working
  | error
deriving DecidableEq, Repr

/-- Task status, from `TaskStatus` in `src/types.ts` (`in-progress` is
`inProgress`). -/
inductive TaskStatus
  | pending
  | inProgress
  | completed
deriving DecidableEq, Repr

/-- Sandbox mode, from `SandboxMode` in `src/types.ts`. -/
inductive SandboxMode
  | readOnly
  | workspaceWrite
  | dangerFullAccess
deriving DecidableEq, Repr

/-- Approval policy, from `ApprovalPolicy` in `src/types.ts`. -/
inductive ApprovalPolicy
  | untrusted
  | onRequest
  | onFailure
  | never
deriving DecidableEq, Repr

/-- Reasoning effort, from `ReasoningEffort` in `src/types.ts`. -/
inductive ReasoningEffort
  | xhigh
  | high
  | medium
  | low
deriving DecidableEq, Repr

/-- An agent, from `Agent` in `src/types.ts`. -/
structure Agent where
  id : String
  role : String
  specialization : String
  threadId : Option String
  model : String
  sandbox : SandboxMode
  baseInstructions : String
  cwd : String
  approvalPolicy : ApprovalPolicy
  reasoningEffort : ReasoningEffort
  isLead : Bool
  status : AgentStatus
  lastOutput : String
  tasks : List String
deriving DecidableEq, Repr

/-- A task, from `Task` in `src/types.ts`. -/
structure Task where
  id : String
  description : String
  status : TaskStatus
  assignedTo : String
  result : Option String
  dependencies : List String
  createdAt : Nat
  completedAt : Option Nat
deriving DecidableEq, Repr

/-- A team, from `Team` in `src/types.ts`: agents and tasks are
`Map<string, _>` keyed by id. -/
structure Team where
  id : String
  name : String
  agents : List (String × Agent)
  tasks : List (String × Task)
  createdAt : Nat
deriving DecidableEq, Repr

/-- The `TeamManager` state from `src/state.ts`. -/
structure TeamManager where
  teams : List (String × Team)
deriving DecidableEq, Repr

/-- An agent record with the defaults applied by `TeamManager.buildAgent`
(model `gpt-5.3-codex`, sandbox workspace-write, approval never, reasoning
high for non-leads, empty addendum), used to build concrete test states. -/
def mkAgent (id role : String) (status : AgentStatus) (tasks : List String) : Agent :=
  { id := id, role := role, specialization := "", threadId := none,
    model := "gpt-5.3-codex", sandbox := .workspaceWrite, baseInstructions := "",
    cwd := "/work", approvalPolicy := .never, reasoningEffort := .high,
    isLead := false, status := status, lastOutput := "", tasks := tasks }

/-- `TeamManager.createTask`: throws `Team not found` / `Agent not found`,
otherwise records the task (status `pending`, dependencies stored verbatim —
the source performs NO validation of `dependencies`) and appends the task id
to the assignee's `tasks` list.  `taskId` stands for `crypto.randomUUID()`
and `now` for `new Date()`. -/
def createTask (mgr : TeamManager) (teamId agentId description : String)
    (dependencies : List String) (taskId : String) (now : Nat) :
    Except String (TeamManager × Task) :=
  match mapGet mgr.teams teamId with
  | none => .error ("Team not found: " ++ teamId)
  | some team =>
    match mapGet team.agents agentId with
    | none => .error ("Agent not found: " ++ agentId)
    | some agent =>
      let task : Task :=
        { id := taskId, description := description, status := .pending,
          assignedTo := agentId, result := none, dependencies := dependencies,
          createdAt := now, completedAt := none }
      let team1 : Team :=
        { team with
          tasks := mapSet team.tasks taskId task
          agents := mapSet team.agents agentId { agent with tasks := agent.tasks ++ [taskId] } }
      .ok ({ teams := mapSet mgr.teams teamId team1 }, task)

/-- The dependency check of `TeamManager.completeTask`'s unblocking loop:
`team.tasks.get(depId)?.status === "completed"`. -/
def depCompleted (tasks : List (String × Task)) (depId : String) : Bool :=
  match mapGet tasks depId with
  | some dep => dep.status == TaskStatus.completed
  | none => false

/-- The loop-body test of `TeamManager.completeTask`: the candidate is still
pending, has a non-empty dependency list containing the completed task, and
every dependency is now completed. -/
def unblockedCandidate (tasks : List (String × Task)) (taskId : String)
    (e : String × Task) : Bool :=
  e.2.status == TaskStatus.pending && !e.2.dependencies.isEmpty &&
    e.2.dependencies.contains taskId &&
    e.2.dependencies.all (fun depId => depCompleted tasks depId)

/-- `TeamManager.completeTask`: mark the task completed (recording result and
completion time) and return the ids of the tasks the completion unblocks. -/
def completeTask (mgr : TeamManager) (teamId taskId : String) (result : Option String)
    (now : Nat) : Except String (TeamManager × List String) :=
  match mapGet mgr.teams teamId with
  | none => .error ("Team not found: " ++ teamId)
  | some team =>
    match mapGet team.tasks taskId with
    | none => .error ("Task not found: " ++ taskId)
    | some _ =>
      let tasks1 := team.tasks.map (fun e =>
        if e.1 == taskId then
          (e.1,
            { e.2 with
              status := TaskStatus.completed
              result := result
              completedAt := some now })
        else e)
      let unblockedTaskIds :=
        (tasks1.filter (fun e => unblockedCandidate tasks1 taskId e)).map (fun e => e.2.id)
      .ok ({ teams := mapSet mgr.teams teamId { team with tasks := tasks1 } }, unblockedTaskIds)

/-- Outcome of `TeamManager.removeAgent`: either a thrown `Error` or the
boolean return value together with the resulting state. -/
inductive RemoveAgentOutcome
  | thrown (msg : String)
  | returned (removed : Bool) (mgr : TeamManager)
deriving DecidableEq, Repr

/-- `TeamManager.removeAgent`: throws for a missing team, returns `false` for
a missing agent, throws when the agent is working or still owns tasks, and
otherwise deletes the agent. -/
def removeAgent (mgr : TeamManager) (teamId agentId : String) : RemoveAgentOutcome :=
  match mapGet mgr.teams teamId with
  | none => .thrown ("Team not found: " ++ teamId)
  | some team =>
    match mapGet team.agents agentId with
    | none => .returned false mgr
    | some agent =>
      if agent.status == .working then
        .thrown ("Agent " ++ agentId ++ " is currently working")
      else if agent.tasks.length > 0 then
        .thrown ("Agent " ++ agentId ++ " has " ++ toString agent.tasks.length ++
          " assigned task(s)")
      else
        .returned true
          { teams := mapSet mgr.teams teamId
              { team with agents := mapDelete team.agents agentId } }

/-- Replacing the bindings of a present key makes its first binding `(k, v)`. -/
theorem find?_replace {α : Type} (l : List (String × α)) (k : String) (v : α)
    (h : l.any (fun e => e.1 == k) = true) :
    (l.map (fun e => if e.1 == k then (k, v) else e)).find? (fun e => e.1 == k) =
      some (k, v) := by
  induction l with
  | nil => simp at h
  | cons e rest ih =>
    by_cases he : (e.1 == k) = true
    · rw [List.map_cons, if_pos he]
      exact List.find?_cons_of_pos _ (by simp)
    · rw [List.map_cons, if_neg he]
      rw [List.find?_cons_of_neg _ (by simpa using he)]
      simp only [List.any_cons, he, Bool.false_or] at h
      exact ih h

/-- Setting a key and reading it back yields the new value. -/
theorem mapGet_mapSet_self {α : Type} (l : List (String × α)) (k : String) (v : α) :
    mapGet (mapSet l k v) k = some v := by
  unfold mapGet mapSet
  by_cases h : l.any (fun e => e.1 == k) = true
  · rw [if_pos h, find?_replace l k v h]
    rfl
  · rw [if_neg h]
    rw [List.find?_append]
    have hnone : List.find? (fun e => e.1 == k) l = none := by
      rw [List.find?_eq_none]
      intro e he
      rw [List.any_eq_true] at h
      push_neg at h
      simpa using h e he
    simp [hnone]

/-- Deleting a key removes its binding. -/
theorem mapGet_mapDelete_self {α : Type} (l : List (String × α)) (k : String) :
    mapGet (mapDelete l k) k = none := by
  unfold mapGet mapDelete
  have : List.find? (fun e => e.1 == k) (l.filter (fun e => e.1 != k)) = none := by
    rw [List.find?_eq_none]
    intro e he
    have := (List.mem_filter.mp he).2
    simpa [bne_iff_ne] using this
  simp [this]


/-- A one-team, one-agent fixture: team `t1` with the idle agent `dev-1` and
no tasks. -/
def c4Team : Team :=
  { id := "t1", name := "demo", agents := [("dev-1", mkAgent "dev-1" "dev" .idle [])],
    tasks := [], createdAt := 0 }

/-- The fixture manager holding `c4Team`. -/
def c4Manager : TeamManager := { teams := [("t1", c4Team)] }

/-- C4 counterexample.  `createTask` succeeds even though the prerequisite id
`ghost` names no task of the team (the team has no tasks at all): the state
store does not validate prerequisites at creation. -/
theorem createTask_accepts_unknown_prereq :
    (createTask c4Manager "t1" "dev-1" "build the thing" ["ghost"] "task-1" 3).isOk = true ∧
    (mapGet c4Manager.teams "t1").map (fun team => team.tasks) = some [] := by
  constructor <;> decide

/-- C4 amended.  `createTask` checks only that the team and the assignee
exist; the dependency list plays no role in whether creation succeeds and is
stored on the new task verbatim, unvalidated. -/
theorem createTask_checks_only_team_and_assignee (mgr : TeamManager)
    (teamId agentId description : String) (dependencies : List String)
    (taskId : String) (now : Nat) :
    ((createTask mgr teamId agentId description dependencies taskId now).isOk = true ↔
      ∃ team, mapGet mgr.teams teamId = some team ∧
        (mapGet team.agents agentId).isSome = true) ∧
    ∀ mgr1 task,
      createTask mgr teamId agentId description dependencies taskId now = .ok (mgr1, task) →
        task.dependencies = dependencies ∧ task.status = .pending ∧
          task.assignedTo = agentId := by
  constructor
  · cases hteam : mapGet mgr.teams teamId with
    | none => simp [createTask, hteam, Except.isOk, Except.toBool]
    | some team =>
      cases hagent : mapGet team.agents agentId with
      | none => simp [createTask, hteam, hagent, Except.isOk, Except.toBool]
      | some agent => simp [createTask, hteam, hagent, Except.isOk, Except.toBool]
  · intro mgr1 task h
    unfold createTask at h
    split at h
    · exact absurd h (by simp)
    · split at h
      · exact absurd h (by simp)
      · simp only [Except.ok.injEq, Prod.mk.injEq] at h
        obtain ⟨-, h2⟩ := h
        subst h2
        exact ⟨rfl, rfl, rfl⟩

/-- Witness for C4's amended statement at the fixture input. -/
theorem createTask_checks_only_team_and_assignee_witness :
    (((createTask c4Manager "t1" "dev-1" "build the thing" ["ghost"] "task-1" 3).isOk = true ↔
      ∃ team, mapGet c4Manager.teams "t1" = some team ∧
        (mapGet team.agents "dev-1").isSome = true) ∧
    ∀ mgr1 task,
      createTask c4Manager "t1" "dev-1" "build the thing" ["ghost"] "task-1" 3 = .ok (mgr1, task) →
        task.dependencies = ["ghost"] ∧ task.status = .pending ∧
          task.assignedTo = "dev-1") :=
  createTask_checks_only_team_and_assignee c4Manager "t1" "dev-1" "build the thing"
    ["ghost"] "task-1" 3

/-- C8.  For an agent that exists on an existing team, `removeAgent` throws
(the `busy` refusal) exactly when the agent is working or still owns at
least one task; otherwise it returns `true` having deleted the agent from
the team. -/
theorem removeAgent_busy_iff (mgr : TeamManager) (teamId agentId : String)
    (team : Team) (agent : Agent)
    (hteam : mapGet mgr.teams teamId = some team)
    (hagent : mapGet team.agents agentId = some agent) :
    ((∃ msg, removeAgent mgr teamId agentId = .thrown msg) ↔
      (agent.status = .working ∨ agent.tasks ≠ [])) ∧
    (agent.status ≠ .working → agent.tasks = [] →
      removeAgent mgr teamId agentId =
        .returned true
          { teams := mapSet mgr.teams teamId
              { team with agents := mapDelete team.agents agentId } } ∧
      mapGet (mapDelete team.agents agentId) agentId = none) := by
  unfold removeAgent
  simp only [hteam, hagent]
  constructor
  · by_cases hw : agent.status = .working
    · simp [hw]
    · by_cases ht : agent.tasks = []
      · simp [hw, ht]
      · have hlen : agent.tasks.length > 0 := List.length_pos.mpr ht
        simp [hw, ht, hlen]
  · intro hw ht
    simp [hw, ht, mapGet_mapDelete_self]

/-- Witness for C8 at the fixture input (idle agent owning no tasks). -/
theorem removeAgent_busy_iff_witness :
    (mapGet c4Manager.teams "t1" = some c4Team ∧
      mapGet c4Team.agents "dev-1" = some (mkAgent "dev-1" "dev" .idle [])) ∧
    (((∃ msg, removeAgent c4Manager "t1" "dev-1" = .thrown msg) ↔
      ((mkAgent "dev-1" "dev" .idle []).status = .working ∨
        (mkAgent "dev-1" "dev" .idle []).tasks ≠ [])) ∧
    ((mkAgent "dev-1" "dev" .idle []).status ≠ .working →
      (mkAgent "dev-1" "dev" .idle []).tasks = [] →
      removeAgent c4Manager "t1" "dev-1" =
        .returned true
          { teams := mapSet c4Manager.teams "t1"
              { c4Team with agents := mapDelete c4Team.agents "dev-1" } } ∧
      mapGet (mapDelete c4Team.agents "dev-1") "dev-1" = none)) :=
  ⟨⟨by decide, by decide⟩,
    removeAgent_busy_iff c4Manager "t1" "dev-1" c4Team (mkAgent "dev-1" "dev" .idle [])
      (by decide) (by decide)⟩


/-- The dependency check succeeds exactly for a present, completed task. -/
theorem depCompleted_iff (tasks : List (String × Task)) (depId : String) :
    depCompleted tasks depId = true ↔
      ∃ dep, mapGet tasks depId = some dep ∧ dep.status = .completed := by
  unfold depCompleted
  cases h : mapGet tasks depId <;> simp [h]

/-- The unblocking test holds exactly for a pending candidate that lists the
completed task among its dependencies, all of which are completed.  (The
source's separate empty-dependency short-circuit is subsumed by
membership.) -/
theorem unblockedCandidate_iff (tasks : List (String × Task)) (taskId : String)
    (e : String × Task) :
    unblockedCandidate tasks taskId e = true ↔
      (e.2.status = .pending ∧ taskId ∈ e.2.dependencies ∧
        ∀ depId ∈ e.2.dependencies,
          ∃ dep, mapGet tasks depId = some dep ∧ dep.status = .completed) := by
  unfold unblockedCandidate
  rw [Bool.and_eq_true, Bool.and_eq_true, Bool.and_eq_true]
  constructor
  · rintro ⟨⟨⟨hp, -⟩, hc⟩, hall⟩
    refine ⟨by simpa using hp, by simpa using hc, ?_⟩
    intro depId hd
    exact (depCompleted_iff tasks depId).mp (List.all_eq_true.mp hall depId hd)
  · rintro ⟨hp, hc, hall⟩
    have hne : e.2.dependencies ≠ [] := by
      intro hnil
      rw [hnil] at hc
      exact absurd hc (List.not_mem_nil taskId)
    refine ⟨⟨⟨by simpa using hp, ?_⟩, by simpa using hc⟩, ?_⟩
    · simpa [List.isEmpty_iff] using hne
    · rw [List.all_eq_true]
      intro depId hd
      exact (depCompleted_iff tasks depId).mpr (hall depId hd)

/-- C6.  For an existing team and task, `completeTask` succeeds, marks the
task completed (recording the result and completion time), and the returned
`unblockedTaskIds` contain exactly the tasks of the team that are still
pending, list the completed task among their dependencies, and all of whose
dependencies are now completed — so tasks already in-progress or completed
are never returned, in any dependency shape. -/
theorem completeTask_unblocked_exactly (mgr : TeamManager) (teamId taskId : String)
    (result : Option String) (now : Nat) (team : Team)
    (hteam : mapGet mgr.teams teamId = some team)
    (htask : (mapGet team.tasks taskId).isSome = true) :
    ∃ mgr1 unblocked team1,
      completeTask mgr teamId taskId result now = .ok (mgr1, unblocked) ∧
      mapGet mgr1.teams teamId = some team1 ∧
      (∀ e ∈ team1.tasks, e.1 = taskId →
        e.2.status = .completed ∧ e.2.result = result ∧ e.2.completedAt = some now) ∧
      (∀ tid, tid ∈ unblocked ↔
        ∃ e ∈ team1.tasks, e.2.id = tid ∧ e.2.status = .pending ∧
          taskId ∈ e.2.dependencies ∧
          ∀ depId ∈ e.2.dependencies,
            ∃ dep, mapGet team1.tasks depId = some dep ∧ dep.status = .completed) := by
  obtain ⟨t0, ht0⟩ := Option.isSome_iff_exists.mp htask
  set tasks1 := team.tasks.map (fun e =>
    if e.1 == taskId then
      (e.1,
        { e.2 with
          status := TaskStatus.completed
          result := result
          completedAt := some now })
    else e) with htasks1
  refine
    ⟨{ teams := mapSet mgr.teams teamId { team with tasks := tasks1 } },
      (tasks1.filter (fun e => unblockedCandidate tasks1 taskId e)).map (fun e => e.2.id),
      { team with tasks := tasks1 }, ?_, mapGet_mapSet_self _ _ _, ?_, ?_⟩
  · unfold completeTask
    simp only [hteam, ht0]
  · intro e he heq
    rw [htasks1] at he
    simp only [List.mem_map] at he
    obtain ⟨a, ha, rfl⟩ := he
    by_cases hk : (a.1 == taskId) = true
    · simp [hk]
    · rw [if_neg hk] at heq ⊢
      exact absurd heq (by simpa using hk)
  · intro tid
    simp only [List.mem_map, List.mem_filter]
    constructor
    · rintro ⟨e, ⟨he, hcand⟩, rfl⟩
      obtain ⟨hp, hc, hall⟩ := (unblockedCandidate_iff _ _ _).mp hcand
      exact ⟨e, he, rfl, hp, hc, hall⟩
    · rintro ⟨e, he, heq, hp, hc, hall⟩
      exact ⟨e, ⟨he, (unblockedCandidate_iff _ _ _).mpr ⟨hp, hc, hall⟩⟩, heq⟩

/-- A task fixture with the given id, status and dependencies. -/
def mkTask (id assignedTo : String) (status : TaskStatus) (deps : List String) : Task :=
  { id := id, description := id, status := status, assignedTo := assignedTo,
    result := none, dependencies := deps, createdAt := 0, completedAt := none }

/-- A diamond-with-fan-out fixture: pending B and C depend on pending A,
pending D depends on B and C, and E (already in-progress) also depends on
A. -/
def c6Team : Team :=
  { id := "t6", name := "diamond",
    agents := [("dev-1", mkAgent "dev-1" "dev" .idle ["A", "B", "C", "D", "E"])],
    tasks :=
      [("A", mkTask "A" "dev-1" .pending []),
       ("B", mkTask "B" "dev-1" .pending ["A"]),
       ("C", mkTask "C" "dev-1" .pending ["A"]),
       ("D", mkTask "D" "dev-1" .pending ["B", "C"]),
       ("E", mkTask "E" "dev-1" .inProgress ["A"])],
    createdAt := 0 }

/-- The fixture manager holding `c6Team`. -/
def c6Manager : TeamManager := { teams := [("t6", c6Team)] }

/-- Witness for C6 on the diamond fixture: completing A unblocks exactly B
and C — D stays blocked behind B and C, and the in-progress E is not
returned. -/
theorem completeTask_unblocked_exactly_witness :
    (mapGet c6Manager.teams "t6" = some c6Team ∧
      (mapGet c6Team.tasks "A").isSome = true ∧
      (completeTask c6Manager "t6" "A" (some "done") 7).toOption.map (fun p => p.2) =
        some ["B", "C"]) ∧
    (∃ mgr1 unblocked team1,
      completeTask c6Manager "t6" "A" (some "done") 7 = .ok (mgr1, unblocked) ∧
      mapGet mgr1.teams "t6" = some team1 ∧
      (∀ e ∈ team1.tasks, e.1 = "A" →
        e.2.status = .completed ∧ e.2.result = some "done" ∧ e.2.completedAt = some 7) ∧
      (∀ tid, tid ∈ unblocked ↔
        ∃ e ∈ team1.tasks, e.2.id = tid ∧ e.2.status = .pending ∧
          "A" ∈ e.2.dependencies ∧
          ∀ depId ∈ e.2.dependencies,
            ∃ dep, mapGet team1.tasks depId = some dep ∧ dep.status = .completed)) :=
  ⟨⟨by decide, by decide, by decide⟩,
    completeTask_unblocked_exactly c6Manager "t6" "A" (some "done") 7 c6Team
      (by decide) (by decide)⟩


/-- Outcome of a `child_process.exec` callback, from Node's contract: the
callback's `error` argument is non-null exactly when the process failed to
launch, was killed (including the timeout kill), or exited with a nonzero
code. -/
structure ExecOutcome where
  launchError : Bool
  timedOut : Bool
  exitCode : Int
  stdout : String
  stderr : String
deriving DecidableEq, Repr

/-- Whether the `exec` callback receives a non-null `error`. -/
def execFailed (o : ExecOutcome) : Bool :=
  o.launchError || o.timedOut || o.exitCode != 0

/-- The request `runVerifyCommand` (src/tools/mission.ts) makes:
`exec(command, { cwd, timeout: 120_000 }, …)` — the operator's command run
through the platform shell in the given working directory with a
120,000 ms (2 minute) kill timeout. -/
structure ExecRequest where
  command : String
  cwd : String
  timeoutMs : Nat
deriving DecidableEq, Repr

/-- The `exec` invocation of `runVerifyCommand`. -/
def runVerifyCommandRequest (command cwd : String) : ExecRequest :=
  { command := command, cwd := cwd, timeoutMs := 120000 }

/-- The promise value of `runVerifyCommand`. -/
structure VerifyResult where
  passed : Bool
  output : String
deriving DecidableEq, Repr

/-- The `exec` callback of `runVerifyCommand`:
`resolve({ passed: !error, output: (stdout + "\n" + stderr).trim() })`. -/
def runVerifyCommandResult (o : ExecOutcome) : VerifyResult :=
  { passed := !execFailed o, output := (o.stdout ++ "\n" ++ o.stderr).trim }

/-- A verification-attempt record, from `VerificationAttempt` in
src/tools/mission.ts. -/
structure VerificationAttempt where
  attempt : Nat
  passed : Bool
  output : String
deriving DecidableEq, Repr

/-- The mission loop's log append:
`mission.verificationLog.push({ attempt, passed: verification.passed,
output: verification.output })`. -/
def recordVerifyAttempt (log : List VerificationAttempt) (attempt : Nat)
    (v : VerifyResult) : List VerificationAttempt :=
  log ++ [{ attempt := attempt, passed := v.passed, output := v.output }]

/-- The mission loop's call site:
`runVerifyCommand(mission.verifyCommand, lead.cwd)`. -/
def missionVerifyRequest (verifyCommand : String) (lead : Agent) : ExecRequest :=
  runVerifyCommandRequest verifyCommand lead.cwd

/-- `TeamManager.getAgent`: `this.teams.get(teamId)?.agents.get(agentId)`. -/
def getAgent (mgr : TeamManager) (teamId agentId : String) : Option Agent :=
  match mapGet mgr.teams teamId with
  | some team => mapGet team.agents agentId
  | none => none

/-- The in-place mutation `task.status = X` of the task object stored under
`taskId` on team `teamId`. -/
def setTaskStatus (mgr : TeamManager) (teamId taskId : String) (status : TaskStatus) :
    TeamManager :=
  { teams := mgr.teams.map (fun te =>
      if te.1 == teamId then
        (te.1,
          { te.2 with
            tasks := te.2.tasks.map (fun e =>
              if e.1 == taskId then (e.1, { e.2 with status := status }) else e) })
      else te) }

/-- One unmet-dependency test of the `assign_task` handler:
`!dep || dep.status !== "completed"` after `state.getTeam(teamId)!` (the
team always exists at this point; a missing team counts as unmet). -/
def depUnmet (mgr1 : TeamManager) (teamId depId : String) : Bool :=
  match mapGet mgr1.teams teamId with
  | none => true
  | some team =>
    match mapGet team.tasks depId with
    | none => true
    | some dep => dep.status != TaskStatus.completed

/-- `hasUnmetDeps` of the `assign_task` handler:
`dependencies && dependencies.length > 0 && dependencies.some(…)`. -/
def hasUnmetDeps (mgr1 : TeamManager) (teamId : String)
    (dependencies : Option (List String)) : Bool :=
  match dependencies with
  | none => false
  | some ds => decide (ds.length > 0) && ds.any (fun depId => depUnmet mgr1 teamId depId)

/-- What the `assign_task` handler returns (its JSON response fields) plus
the resulting state and, as a model-level observation, whether the
`codex.sendToAgent` auto-start call was fired. -/
structure AssignOutcome where
  mgr : TeamManager
  taskId : String
  assignedTo : String
  status : TaskStatus
  hasPendingDependencies : Bool
  fired : Bool
deriving DecidableEq, Repr

/-- The `assign_task` tool handler (src/tools/mission.ts, task tools):
create the task; when no dependency is unmet and the assignee is not
working, set it in-progress and fire the adapter call, reverting to pending
if the call throws.  `adapter` is the outcome of the awaited
`codex.sendToAgent`. -/
def assignTaskHandler (mgr : TeamManager) (teamId agentId description : String)
    (dependencies : Option (List String)) (taskId : String) (now : Nat)
    (adapter : Except String String) : Except String AssignOutcome :=
  match createTask mgr teamId agentId description (dependencies.getD []) taskId now with
  | .error e => .error e
  | .ok (mgr1, task) =>
    if hasUnmetDeps mgr1 teamId dependencies then
      .ok { mgr := mgr1, taskId := task.id, assignedTo := task.assignedTo,
            status := task.status, hasPendingDependencies := true, fired := false }
    else
      match getAgent mgr1 teamId agentId with
      | some agent =>
        if agent.status != AgentStatus.working then
          match adapter with
          | .ok _ =>
            .ok { mgr := setTaskStatus mgr1 teamId taskId TaskStatus.inProgress,
                  taskId := task.id, assignedTo := task.assignedTo,
                  status := TaskStatus.inProgress, hasPendingDependencies := false,
                  fired := true }
          | .error _ =>
            .ok { mgr := setTaskStatus
                    (setTaskStatus mgr1 teamId taskId TaskStatus.inProgress)
                    teamId taskId TaskStatus.pending,
                  taskId := task.id, assignedTo := task.assignedTo,
                  status := TaskStatus.pending, hasPendingDependencies := false,
                  fired := true }
        else
          .ok { mgr := mgr1, taskId := task.id, assignedTo := task.assignedTo,
                status := task.status, hasPendingDependencies := false, fired := false }
      | none =>
        .ok { mgr := mgr1, taskId := task.id, assignedTo := task.assignedTo,
              status := task.status, hasPendingDependencies := false, fired := false }

/-- A `triggeredTasks` entry of the `complete_task` handler. -/
structure TriggeredTask where
  taskId : String
  agentId : String
  description : String
deriving DecidableEq, Repr

/-- One iteration of the `complete_task` handler's unblocked-task loop:
skip if the task or its assignee is missing or the assignee is working;
otherwise set the task in-progress and fire the background adapter call,
which on failure reverts the task to pending.  The returned state is the
post-settlement one (`adapter` is the background call's outcome); the entry
is returned whenever the call was fired. -/
def triggerUnblocked (mgr : TeamManager) (teamId unblockedId : String)
    (adapter : Except String String) : TeamManager × Option TriggeredTask :=
  match mapGet mgr.teams teamId with
  | none => (mgr, none)
  | some team =>
    match mapGet team.tasks unblockedId with
    | none => (mgr, none)
    | some unblockedTask =>
      match mapGet team.agents unblockedTask.assignedTo with
      | none => (mgr, none)
      | some agent =>
        if agent.status != AgentStatus.working then
          (setTaskStatus mgr teamId unblockedId
            (match adapter with
             | .ok _ => TaskStatus.inProgress
             | .error _ => TaskStatus.pending),
            some { taskId := unblockedId, agentId := agent.id,
                   description := unblockedTask.description })
        else (mgr, none)

/-- The `complete_task` tool handler: resolve the result (explicit, or the
assignee's last output, or empty), complete the task in the state store,
and run the unblocked-task loop; `adapter` gives each background call's
outcome keyed by unblocked task id. -/
def completeTaskHandler (mgr : TeamManager) (teamId taskId : String)
    (result : Option String) (now : Nat) (adapter : String → Except String String) :
    Except String (TeamManager × String × List TriggeredTask) :=
  match mapGet mgr.teams teamId with
  | none => .error ("Team not found: " ++ teamId)
  | some team =>
    match mapGet team.tasks taskId with
    | none => .error ("Task not found: " ++ taskId)
    | some task =>
      let taskResult :=
        match result with
        | some r => r
        | none =>
          match mapGet team.agents task.assignedTo with
          | some a => a.lastOutput
          | none => ""
      match completeTask mgr teamId taskId (some taskResult) now with
      | .error e => .error e
      | .ok (mgr1, unblockedIds) =>
        let step := unblockedIds.foldl
          (fun (acc : TeamManager × List TriggeredTask) uid =>
            let r := triggerUnblocked acc.1 teamId uid (adapter uid)
            match r.2 with
            | some t => (r.1, acc.2 ++ [t])
            | none => (r.1, acc.2))
          (mgr1, [])
        .ok (step.1, taskResult, step.2)

/-- A per-agent result entry of the `broadcast` handler's summary. -/
structure BroadcastEntry where
  agentId : String
  role : String
  status : String
  output : String
deriving DecidableEq, Repr

/-- The `broadcast` tool handler (src/tools/communication.ts): resolve the
explicit target list by dropping ids that name no agent of the team
(`.filter(Boolean)` — no not_found error), or default to all agents; skip
agents whose status is working; send to the rest and collect one
success/error entry per remaining target, in order. -/
def broadcastHandler (mgr : TeamManager) (teamId message : String)
    (agentIds : Option (List String)) (adapter : Agent → String → Except String String) :
    Except String (List BroadcastEntry) :=
  match mapGet mgr.teams teamId with
  | none => .error ("Team not found: " ++ teamId)
  | some team =>
    let targets : List Agent :=
      match agentIds with
      | some ids => ids.filterMap (fun id => mapGet team.agents id)
      | none => team.agents.map (fun e => e.2)
    let available := targets.filter (fun a => a.status != AgentStatus.working)
    .ok (available.map (fun a =>
      match adapter a message with
      | .ok out => { agentId := a.id, role := a.role, status := "success", output := out }
      | .error e => { agentId := a.id, role := a.role, status := "error", output := e }))


/-- C2 counterexample.  The timeout `runVerifyCommand` passes to `exec` is
120,000 ms (2 minutes), not the 600,000 ms (10 minutes) the claim states. -/
theorem runVerifyCommand_timeout_is_two_minutes :
    (runVerifyCommandRequest "npm test" "/workspace").timeoutMs = 120000 ∧
    ¬ (runVerifyCommandRequest "npm test" "/workspace").timeoutMs = 600000 := by
  constructor <;> decide

/-- C2 amended.  Each verification attempt runs the verify command through
`exec` (a shell child process) in the lead's working directory with a
120,000 ms (2 minute) wall-clock timeout; the attempt is recorded with
`passed` true exactly when the process launched, was not killed by the
timeout, and exited with code zero, and the captured output is
stdout and stderr concatenated with a newline and trimmed. -/
theorem runVerifyCommand_spec (command : String) (lead : Agent) (o : ExecOutcome)
    (log : List VerificationAttempt) (n : Nat) :
    (missionVerifyRequest command lead).command = command ∧
    (missionVerifyRequest command lead).cwd = lead.cwd ∧
    (missionVerifyRequest command lead).timeoutMs = 120000 ∧
    ((runVerifyCommandResult o).passed = true ↔
      (o.launchError = false ∧ o.timedOut = false ∧ o.exitCode = 0)) ∧
    (runVerifyCommandResult o).output = (o.stdout ++ "\n" ++ o.stderr).trim ∧
    (recordVerifyAttempt log n (runVerifyCommandResult o)).map (fun a => a.passed) =
      log.map (fun a => a.passed) ++ [(runVerifyCommandResult o).passed] := by
  refine ⟨rfl, rfl, rfl, ?_, rfl, by simp [recordVerifyAttempt]⟩
  simp only [runVerifyCommandResult, execFailed, Bool.not_eq_true', Bool.or_eq_false_iff,
    bne_eq_false_iff_eq]
  exact and_assoc

/-- A three-agent broadcast fixture: one idle, one working, one errored
agent on team `tX`. -/
def c10Team : Team :=
  { id := "tX", name := "bc",
    agents := [("idle-1", mkAgent "idle-1" "dev" .idle []),
               ("work-1", mkAgent "work-1" "dev" .working []),
               ("err-1", mkAgent "err-1" "dev" .error [])],
    tasks := [], createdAt := 0 }

/-- The fixture manager holding `c10Team`. -/
def c10Manager : TeamManager := { teams := [("tX", c10Team)] }

/-- A fixture adapter that fails for `err-1` and succeeds for everyone
else. -/
def c10Adapter : Agent → String → Except String String :=
  fun a _ => if a.id == "err-1" then .error "boom" else .ok "done"

/-- C10.  With an explicit target list and an existing team, `broadcast`
returns a success result (never a not_found error, whatever unknown ids the
list contains); its per-agent entries are exactly, in order, the targets
that resolve to an agent of the team (unknown ids are silently dropped by
`.filter(Boolean)`) and are not currently working, each entry carrying a
success or error status from its adapter call. -/
theorem broadcast_drops_unknown_and_working (mgr : TeamManager) (teamId message : String)
    (ids : List String) (adapter : Agent → String → Except String String) (team : Team)
    (hteam : mapGet mgr.teams teamId = some team) :
    ∃ entries,
      broadcastHandler mgr teamId message (some ids) adapter = .ok entries ∧
      entries.map (fun e => e.agentId) =
        ((ids.filterMap (fun id => mapGet team.agents id)).filter
          (fun a => a.status != AgentStatus.working)).map (fun a => a.id) ∧
      (∀ e ∈ entries, e.status = "success" ∨ e.status = "error") := by
  refine
    ⟨((ids.filterMap (fun id => mapGet team.agents id)).filter
        (fun a => a.status != AgentStatus.working)).map (fun a =>
          match adapter a message with
          | .ok out => { agentId := a.id, role := a.role, status := "success", output := out }
          | .error e => { agentId := a.id, role := a.role, status := "error", output := e }),
      ?_, ?_, ?_⟩
  · unfold broadcastHandler
    simp only [hteam]
  · rw [List.map_map]
    refine List.map_congr_left ?_
    intro a _
    simp only [Function.comp_apply]
    cases adapter a message <;> rfl
  · intro e he
    simp only [List.mem_map] at he
    obtain ⟨a, -, rfl⟩ := he
    cases adapter a message
    · right; rfl
    · left; rfl

/-- Witness for C10 on the fixture: the unknown id `ghost` is dropped, the
working agent is skipped, and the two remaining targets produce one success
and one error entry. -/
theorem broadcast_drops_unknown_and_working_witness :
    (mapGet c10Manager.teams "tX" = some c10Team ∧
      broadcastHandler c10Manager "tX" "go" (some ["idle-1", "ghost", "work-1", "err-1"])
          c10Adapter =
        .ok [{ agentId := "idle-1", role := "dev", status := "success", output := "done" },
             { agentId := "err-1", role := "dev", status := "error", output := "boom" }]) ∧
    (∃ entries,
      broadcastHandler c10Manager "tX" "go" (some ["idle-1", "ghost", "work-1", "err-1"])
          c10Adapter = .ok entries ∧
      entries.map (fun e => e.agentId) =
        ((["idle-1", "ghost", "work-1", "err-1"].filterMap
            (fun id => mapGet c10Team.agents id)).filter
          (fun a => a.status != AgentStatus.working)).map (fun a => a.id) ∧
      (∀ e ∈ entries, e.status = "success" ∨ e.status = "error")) :=
  ⟨⟨by decide, by rfl⟩,
    broadcast_drops_unknown_and_working c10Manager "tX" "go"
      ["idle-1", "ghost", "work-1", "err-1"] c10Adapter c10Team (by decide)⟩


/-- Fields of the task built by a successful `createTask`. -/
theorem createTask_ok_fields (mgr : TeamManager) (teamId agentId description : String)
    (dependencies : List String) (taskId : String) (now : Nat) (mgr1 : TeamManager)
    (task : Task)
    (h : createTask mgr teamId agentId description dependencies taskId now = .ok (mgr1, task)) :
    task.id = taskId ∧ task.status = .pending ∧ task.assignedTo = agentId := by
  unfold createTask at h
  split at h
  · exact absurd h (by simp)
  · split at h
    · exact absurd h (by simp)
    · simp only [Except.ok.injEq, Prod.mk.injEq] at h
      obtain ⟨-, h2⟩ := h
      subst h2
      exact ⟨rfl, rfl, rfl⟩

/-- The unmet-dependency test fails exactly for a dependency that resolves,
through an existing team, to a completed task. -/
theorem depUnmet_false_iff (mgr1 : TeamManager) (teamId depId : String) :
    depUnmet mgr1 teamId depId = false ↔
      ∃ team dep, mapGet mgr1.teams teamId = some team ∧
        mapGet team.tasks depId = some dep ∧ dep.status = .completed := by
  unfold depUnmet
  cases hteam : mapGet mgr1.teams teamId with
  | none => simp [hteam]
  | some team =>
    cases hdep : mapGet team.tasks depId with
    | none => simp [hteam, hdep]
    | some dep => simp [hteam, hdep, bne_eq_false_iff_eq]

/-- `hasUnmetDeps` is false exactly when every listed dependency is a
completed task of the (existing) team. -/
theorem hasUnmetDeps_false_iff (mgr1 : TeamManager) (teamId : String)
    (dependencies : Option (List String)) :
    hasUnmetDeps mgr1 teamId dependencies = false ↔
      ∀ depId ∈ dependencies.getD [], ∃ team dep,
        mapGet mgr1.teams teamId = some team ∧
        mapGet team.tasks depId = some dep ∧ dep.status = .completed := by
  cases dependencies with
  | none => simp [hasUnmetDeps]
  | some ds =>
    cases ds with
    | nil => simp [hasUnmetDeps]
    | cons d rest =>
      have hlen : decide ((d :: rest).length > 0) = true := by simp
      show (decide ((d :: rest).length > 0) &&
          (d :: rest).any (fun depId => depUnmet mgr1 teamId depId)) = false ↔ _
      rw [hlen, Bool.true_and]
      simp only [List.any_eq_false, Bool.not_eq_true, depUnmet_false_iff, Option.getD_some]

/-- Adjusting the value stored under a key, entry-wise. -/
theorem mapGet_map_adjust {α : Type} (l : List (String × α)) (k : String) (f : α → α) :
    mapGet (l.map (fun e => if e.1 == k then (e.1, f e.2) else e)) k =
      (mapGet l k).map f := by
  induction l with
  | nil => rfl
  | cons e rest ih =>
    unfold mapGet at ih ⊢
    by_cases he : (e.1 == k) = true
    · rw [List.map_cons, if_pos he]
      have h1 : List.find? (fun x => x.1 == k)
          ((e.1, f e.2) :: rest.map (fun e => if e.1 == k then (e.1, f e.2) else e)) =
            some (e.1, f e.2) := List.find?_cons_of_pos _ he
      have h2 : List.find? (fun x => x.1 == k) (e :: rest) = some e :=
        List.find?_cons_of_pos _ he
      rw [h1, h2]
      rfl
    · rw [List.map_cons, if_neg he]
      have h1 : List.find? (fun x => x.1 == k)
          (e :: rest.map (fun e => if e.1 == k then (e.1, f e.2) else e)) =
            List.find? (fun x => x.1 == k)
              (rest.map (fun e => if e.1 == k then (e.1, f e.2) else e)) :=
        List.find?_cons_of_neg _ he
      have h2 : List.find? (fun x => x.1 == k) (e :: rest) =
          List.find? (fun x => x.1 == k) rest := List.find?_cons_of_neg _ he
      rw [h1, h2]
      exact ih

/-- What `setTaskStatus` does to the team under `teamId`. -/
theorem mapGet_setTaskStatus_teams (mgr : TeamManager) (teamId taskId : String)
    (st : TaskStatus) :
    mapGet (setTaskStatus mgr teamId taskId st).teams teamId =
      (mapGet mgr.teams teamId).map (fun team =>
        { team with tasks := team.tasks.map (fun e =>
            if e.1 == taskId then (e.1, { e.2 with status := st }) else e) }) := by
  unfold setTaskStatus
  exact mapGet_map_adjust mgr.teams teamId (fun team =>
    { team with tasks := team.tasks.map (fun e =>
        if e.1 == taskId then (e.1, { e.2 with status := st }) else e) })

/-- C9 amended.  Auto-start is gated on the assignee being NOT WORKING (idle
or errored), not on being idle: (1) the `assign_task` handler fires the
adapter call exactly when the task was created, every listed prerequisite is
a completed task of the team, and the assignee exists with status ≠
working; the response's task status is in-progress when the fired call
succeeds, and reverts to pending when it fails, and stays pending when no
call is fired; (2) the `complete_task` unblocked-task loop body fires
(returns a triggered entry) exactly when the unblocked task and its
assignee exist and the assignee's status is ≠ working, and the task ends
in-progress when the background call succeeds and pending when it fails. -/
theorem auto_start_requires_not_working :
    (∀ (mgr : TeamManager) (teamId agentId description : String)
        (dependencies : Option (List String)) (taskId : String) (now : Nat)
        (adapter : Except String String) (r : AssignOutcome),
      assignTaskHandler mgr teamId agentId description dependencies taskId now adapter =
          .ok r →
      ((r.fired = true ↔
          ∃ mgr1 task a,
            createTask mgr teamId agentId description (dependencies.getD []) taskId now =
              .ok (mgr1, task) ∧
            (∀ depId ∈ dependencies.getD [], ∃ team dep,
              mapGet mgr1.teams teamId = some team ∧
              mapGet team.tasks depId = some dep ∧ dep.status = .completed) ∧
            getAgent mgr1 teamId agentId = some a ∧ a.status ≠ .working) ∧
        (∀ e, adapter = .error e → r.fired = true → r.status = .pending) ∧
        (∀ out, adapter = .ok out → r.fired = true → r.status = .inProgress) ∧
        (r.fired = false → r.status = .pending))) ∧
    (∀ (mgr : TeamManager) (teamId uid : String) (adapter : Except String String),
      ((triggerUnblocked mgr teamId uid adapter).2.isSome = true ↔
        ∃ team ut a, mapGet mgr.teams teamId = some team ∧
          mapGet team.tasks uid = some ut ∧
          mapGet team.agents ut.assignedTo = some a ∧ a.status ≠ .working) ∧
      (∀ team ut a, mapGet mgr.teams teamId = some team →
        mapGet team.tasks uid = some ut →
        mapGet team.agents ut.assignedTo = some a →
        a.status ≠ .working →
        ∃ team1 ut1,
          mapGet (triggerUnblocked mgr teamId uid adapter).1.teams teamId = some team1 ∧
          mapGet team1.tasks uid = some ut1 ∧
          ut1.status = (match adapter with
            | .ok _ => TaskStatus.inProgress
            | .error _ => TaskStatus.pending))) := by
  constructor
  · intro mgr teamId agentId description dependencies taskId now adapter r h
    unfold assignTaskHandler at h
    split at h
    · exact absurd h (by simp)
    next mgr1 task heq =>
      have hfields := createTask_ok_fields mgr teamId agentId description
        (dependencies.getD []) taskId now mgr1 task heq
      by_cases hd : hasUnmetDeps mgr1 teamId dependencies = true
      · rw [if_pos hd] at h
        simp only [Except.ok.injEq] at h
        subst h
        refine ⟨?_, ?_, ?_, ?_⟩
        · constructor
          · intro hf
            exact absurd hf (by simp)
          · rintro ⟨mgr1x, taskx, a, hcx, hdeps, -, -⟩
            rw [heq] at hcx
            simp only [Except.ok.injEq, Prod.mk.injEq] at hcx
            obtain ⟨rfl, -⟩ := hcx
            exact absurd ((hasUnmetDeps_false_iff mgr1 teamId dependencies).mpr hdeps)
              (by simp [hd])
        · intro e he hf
          exact absurd hf (by simp)
        · intro out ho hf
          exact absurd hf (by simp)
        · intro _
          exact hfields.2.1
      · rw [if_neg hd] at h
        rw [Bool.not_eq_true] at hd
        split at h
        next agent hag =>
          by_cases hw : (agent.status != AgentStatus.working) = true
          · rw [if_pos hw] at h
            cases adapter with
            | ok out =>
              simp only [Except.ok.injEq] at h
              subst h
              refine ⟨?_, ?_, ?_, ?_⟩
              · exact ⟨fun _ => ⟨mgr1, task, agent, heq,
                  (hasUnmetDeps_false_iff mgr1 teamId dependencies).mp hd, hag,
                  bne_iff_ne.mp hw⟩, fun _ => rfl⟩
              · intro e he
                exact absurd he (by simp)
              · intro _ _ _
                rfl
              · intro hf
                exact absurd hf (by simp)
            | error e =>
              simp only [Except.ok.injEq] at h
              subst h
              refine ⟨?_, ?_, ?_, ?_⟩
              · exact ⟨fun _ => ⟨mgr1, task, agent, heq,
                  (hasUnmetDeps_false_iff mgr1 teamId dependencies).mp hd, hag,
                  bne_iff_ne.mp hw⟩, fun _ => rfl⟩
              · intro _ _ _
                rfl
              · intro out ho
                exact absurd ho (by simp)
              · intro hf
                exact absurd hf (by simp)
          · rw [if_neg hw] at h
            simp only [Except.ok.injEq] at h
            subst h
            have hwork : agent.status = AgentStatus.working := by
              simpa [bne_eq_false_iff_eq] using hw
            refine ⟨?_, ?_, ?_, ?_⟩
            · constructor
              · intro hf
                exact absurd hf (by simp)
              · rintro ⟨mgr1x, taskx, a, hcx, -, hagx, hne⟩
                rw [heq] at hcx
                simp only [Except.ok.injEq, Prod.mk.injEq] at hcx
                obtain ⟨rfl, -⟩ := hcx
                rw [hag] at hagx
                simp only [Option.some.injEq] at hagx
                subst hagx
                exact absurd hwork hne
            · intro e he hf
              exact absurd hf (by simp)
            · intro out ho hf
              exact absurd hf (by simp)
            · intro _
              exact hfields.2.1
        next hag =>
          simp only [Except.ok.injEq] at h
          subst h
          refine ⟨?_, ?_, ?_, ?_⟩
          · constructor
            · intro hf
              exact absurd hf (by simp)
            · rintro ⟨mgr1x, taskx, a, hcx, -, hagx, -⟩
              rw [heq] at hcx
              simp only [Except.ok.injEq, Prod.mk.injEq] at hcx
              obtain ⟨rfl, -⟩ := hcx
              rw [hag] at hagx
              exact absurd hagx (by simp)
          · intro e he hf
            exact absurd hf (by simp)
          · intro out ho hf
            exact absurd hf (by simp)
          · intro _
            exact hfields.2.1
  · intro mgr teamId uid adapter
    constructor
    · unfold triggerUnblocked
      cases hteam : mapGet mgr.teams teamId with
      | none => simp [hteam]
      | some team =>
        cases hut : mapGet team.tasks uid with
        | none => simp [hteam, hut]
        | some ut =>
          cases hag : mapGet team.agents ut.assignedTo with
          | none => simp [hteam, hut, hag]
          | some a =>
            by_cases hw : (a.status != AgentStatus.working) = true
            · simp [hteam, hut, hag, hw, bne_iff_ne.mp hw]
            · have hwork : a.status = AgentStatus.working := by
                have := Bool.not_eq_true _ ▸ hw
                simpa [bne_eq_false_iff_eq] using this
              simp [hteam, hut, hag, hw, hwork]
    · intro team ut a hteam hut hag hne
      unfold triggerUnblocked
      have hw : (a.status != AgentStatus.working) = true := bne_iff_ne.mpr hne
      simp only [hteam, hut, hag, hw, if_true]
      refine
        ⟨{ team with tasks := team.tasks.map (fun e =>
            if e.1 == uid then
              (e.1, { e.2 with status := (match adapter with
                | .ok _ => TaskStatus.inProgress
                | .error _ => TaskStatus.pending) })
            else e) },
          { ut with status := (match adapter with
              | .ok _ => TaskStatus.inProgress
              | .error _ => TaskStatus.pending) }, ?_, ?_, rfl⟩
      · rw [mapGet_setTaskStatus_teams, hteam]
        rfl
      · have hadj := mapGet_map_adjust team.tasks uid (fun t =>
          { t with status := (match adapter with
              | .ok _ => TaskStatus.inProgress
              | .error _ => TaskStatus.pending) })
        rw [hut] at hadj
        simpa using hadj


/-- Whether the handler result reports a fired auto-start call. -/
def assignFired (res : Except String AssignOutcome) : Bool :=
  match res with
  | .ok r => r.fired
  | .error _ => false

/-- The task status a successful handler result reports. -/
def assignResultStatus (res : Except String AssignOutcome) : Option TaskStatus :=
  match res with
  | .ok r => some r.status
  | .error _ => none

/-- A one-team fixture whose only agent has status `error` (so it is not
idle, but also not working). -/
def c9Team : Team :=
  { id := "t9", name := "demo", agents := [("err-1", mkAgent "err-1" "dev" .error [])],
    tasks := [], createdAt := 0 }

/-- The fixture manager holding `c9Team`. -/
def c9Manager : TeamManager := { teams := [("t9", c9Team)] }

/-- C9 counterexample.  The `assign_task` auto-start gate is
`agent.status !== "working"`, not "is idle": a dependency-free task assigned
to an agent whose status is `error` is still auto-started (the adapter call
fires and the task goes in-progress), refuting "only when the assignee's
status is idle". -/
theorem assign_auto_starts_error_status_agent :
    assignFired (assignTaskHandler c9Manager "t9" "err-1" "fix" none "task-9" 0
      (.ok "done")) = true ∧
    assignResultStatus (assignTaskHandler c9Manager "t9" "err-1" "fix" none "task-9" 0
      (.ok "done")) = some .inProgress ∧
    (mkAgent "err-1" "dev" .error []).status ≠ .idle := by
  refine ⟨?_, ?_, ?_⟩ <;> decide

/-- The value inside an `Except.ok`, with a fallback for `Except.error`. -/
def exceptOkOr {ε α : Type} (d : α) (e : Except ε α) : α :=
  match e with
  | .ok v => v
  | .error _ => d

/-- The fixture `assign_task` handler run (auto-start fires for the errored
agent with a succeeding adapter call). -/
def c9Assign : Except String AssignOutcome :=
  assignTaskHandler c9Manager "t9" "err-1" "fix" none "task-9" 0 (.ok "done")

/-- The successful outcome of `c9Assign`. -/
def c9AssignOut : AssignOutcome :=
  exceptOkOr
    { mgr := c9Manager, taskId := "", assignedTo := "", status := .pending,
      hasPendingDependencies := false, fired := false }
    c9Assign

/-- A trigger-loop fixture: idle `dev-1` owns the pending task `B`. -/
def c9tTeam : Team :=
  { id := "tt", name := "trig",
    agents := [("dev-1", mkAgent "dev-1" "dev" .idle ["B"])],
    tasks := [("B", mkTask "B" "dev-1" .pending ["A"])], createdAt := 0 }

/-- The fixture manager holding `c9tTeam`. -/
def c9tManager : TeamManager := { teams := [("tt", c9tTeam)] }

/-- Witness for C9: the assign part at the errored-agent fixture, and the
trigger part at the idle-agent fixture with a failing background call
(whose task therefore settles back to pending). -/
theorem auto_start_requires_not_working_witness :
    (assignTaskHandler c9Manager "t9" "err-1" "fix" none "task-9" 0 (.ok "done") =
        .ok c9AssignOut ∧
      ((c9AssignOut.fired = true ↔
          ∃ mgr1 task a,
            createTask c9Manager "t9" "err-1" "fix" ((none : Option (List String)).getD [])
              "task-9" 0 = .ok (mgr1, task) ∧
            (∀ depId ∈ (none : Option (List String)).getD [], ∃ team dep,
              mapGet mgr1.teams "t9" = some team ∧
              mapGet team.tasks depId = some dep ∧ dep.status = .completed) ∧
            getAgent mgr1 "t9" "err-1" = some a ∧ a.status ≠ .working) ∧
        (∀ e, (Except.ok "done" : Except String String) = .error e →
          c9AssignOut.fired = true → c9AssignOut.status = .pending) ∧
        (∀ out, (Except.ok "done" : Except String String) = .ok out →
          c9AssignOut.fired = true → c9AssignOut.status = .inProgress) ∧
        (c9AssignOut.fired = false → c9AssignOut.status = .pending))) ∧
    (mapGet c9tManager.teams "tt" = some c9tTeam ∧
      mapGet c9tTeam.tasks "B" = some (mkTask "B" "dev-1" .pending ["A"]) ∧
      mapGet c9tTeam.agents "dev-1" = some (mkAgent "dev-1" "dev" .idle ["B"]) ∧
      (mkAgent "dev-1" "dev" .idle ["B"]).status ≠ .working ∧
      ∃ team1 ut1,
        mapGet (triggerUnblocked c9tManager "tt" "B" (.error "boom")).1.teams "tt" =
          some team1 ∧
        mapGet team1.tasks "B" = some ut1 ∧
        ut1.status = (match (Except.error "boom" : Except String String) with
          | .ok _ => TaskStatus.inProgress
          | .error _ => TaskStatus.pending)) :=
  ⟨⟨rfl,
    auto_start_requires_not_working.1 c9Manager "t9" "err-1" "fix" none "task-9" 0
      (.ok "done") c9AssignOut rfl⟩,
   ⟨by decide, by decide, by decide, by decide,
    (auto_start_requires_not_working.2 c9tManager "tt" "B" (.error "boom")).2 c9tTeam
      (mkTask "B" "dev-1" .pending ["A"]) (mkAgent "dev-1" "dev" .idle ["B"])
      (by decide) (by decide) (by decide) (by decide)⟩⟩


/-- Witness for C5 at a concrete one-post channel state. -/
theorem read_own_suppression_witness :
    (∀ m ∈ (groupChatRead (groupChatPost emptySystem "t1" "dev-1" "dev" "hello" "m1" 4)
        "t1" "dev-1").1, m.fromId ≠ "dev-1") ∧
    groupChatPeek (groupChatPost emptySystem "t1" "dev-1" "dev" "hello" "m1" 4) "t1" "dev-1" =
      (groupChatRead (groupChatPost emptySystem "t1" "dev-1" "dev" "hello" "m1" 4)
        "t1" "dev-1").1.length ∧
    (∀ m ∈ (leadChatRead (groupChatPost emptySystem "t1" "dev-1" "dev" "hello" "m1" 4)
        "dev-1").1, m.fromId ≠ "dev-1") ∧
    leadChatPeek (groupChatPost emptySystem "t1" "dev-1" "dev" "hello" "m1" 4) "dev-1" =
      (leadChatRead (groupChatPost emptySystem "t1" "dev-1" "dev" "hello" "m1" 4)
        "dev-1").1.length :=
  read_own_suppression (groupChatPost emptySystem "t1" "dev-1" "dev" "hello" "m1" 4)
    "t1" "dev-1"

/-- A concrete `exec` outcome: clean launch, no timeout kill, exit code 0. -/
def cleanExecOutcome : ExecOutcome :=
  { launchError := false, timedOut := false, exitCode := 0,
    stdout := "ok", stderr := "" }

/-- Witness for C2's amended statement at a concrete command, lead and
outcome. -/
theorem runVerifyCommand_spec_witness :
    (missionVerifyRequest "npm test" (mkAgent "lead-1" "lead" .idle [])).command =
      "npm test" ∧
    (missionVerifyRequest "npm test" (mkAgent "lead-1" "lead" .idle [])).cwd =
      (mkAgent "lead-1" "lead" .idle []).cwd ∧
    (missionVerifyRequest "npm test" (mkAgent "lead-1" "lead" .idle [])).timeoutMs =
      120000 ∧
    ((runVerifyCommandResult cleanExecOutcome).passed = true ↔
      (cleanExecOutcome.launchError = false ∧ cleanExecOutcome.timedOut = false ∧
        cleanExecOutcome.exitCode = 0)) ∧
    (runVerifyCommandResult cleanExecOutcome).output =
      (cleanExecOutcome.stdout ++ "\n" ++ cleanExecOutcome.stderr).trim ∧
    (recordVerifyAttempt [] 1 (runVerifyCommandResult cleanExecOutcome)).map
        (fun a => a.passed) =
      ([] : List VerificationAttempt).map (fun a => a.passed) ++
        [(runVerifyCommandResult cleanExecOutcome).passed] :=
  runVerifyCommand_spec "npm test" (mkAgent "lead-1" "lead" .idle []) cleanExecOutcome [] 1

end CodexTeams
